import Mathlib

/-!
Shallow embedding of the `SafetyEscrow` Solidity contract
(booking escrow state machine with SLA verification, timeout refunds,
penalty splits and dispute resolution), together with theorems checking
the natural-language specification against it.

Conventions of the embedding:
* `Address` is `Nat`; address `0` is the null identity (Solidity `address(0)`).
* Solidity mappings are total functions with the zero value as default;
  in particular `bookings : String → Booking` returns the all-zero
  `Booking` for an absent id, and "the booking exists" is
  `(bookings id).tourist ≠ 0`, exactly as the contract's
  `bookingExists` modifier checks.
* Each state-changing entry point becomes a function
  `... → Ledger → Except Err (Ledger × List Transfer)`; a `require`
  failure is an `Except.error`, and EVM revert semantics mean an error
  leaves the pre-state untouched (`stateOf` below realises that).
* The external fund-transfer primitive is a parameter
  `xferOk : Address → Nat → Bool`; a `false` answer models a failed
  low-level `call`, which the contract turns into a revert.
* `block.timestamp`, `msg.sender` and `msg.value` are explicit `now`,
  `sender` and `value` arguments.
-/

namespace SafetyEscrow

abbrev Address := Nat

/-- The `BookingStatus` enum of the contract. -/
inductive BookingStatus where
  | Pending
  | SLAPassed
  | SLAFailed
  | Refunded
  | Paid
  | Disputed
deriving DecidableEq, Repr

/-- The `Booking` struct of the contract.  `tourOperator` is the source's
`operator` field (the payee). -/
structure Booking where
  tourist : Address
  tourOperator : Address
  amount : Nat
  depositTime : Nat
  slaDeadline : Nat
  status : BookingStatus
  slaVerified : Bool
  bookingId : String
deriving DecidableEq, Repr

/-- Error taxonomy; each `require` message of the contract is mapped to
the corresponding error of the specification's taxonomy. -/
inductive Err where
  | NotFound
  | DuplicateId
  | InvalidAmount
  | InvalidParty
  | Unauthorized
  | InvalidState
  | AlreadyVerified
  | DeadlinePassed
  | DeadlineNotReached
  | TransferFailed
deriving DecidableEq, Repr

/-- A performed payout: recipient and value. -/
abbrev Transfer := Address × Nat

/-- Contract storage: the three mappings plus the `Ownable` owner. -/
structure Ledger where
  bookings : String → Booking
  authorizedOracles : Address → Bool
  arbiters : Address → Bool
  owner : Address

/-- `SLA_TIMEOUT_HOURS` constant of the contract. -/
def SLA_TIMEOUT_HOURS : Nat := 24

/-- `PENALTY_PERCENTAGE` constant of the contract. -/
def PENALTY_PERCENTAGE : Nat := 10

/-- `BASIS_POINTS` constant of the contract. -/
def BASIS_POINTS : Nat := 10000

/-- One hour in seconds (Solidity `1 hours`). -/
def oneHour : Nat := 3600

/-- The penalty computed by `refundWithPenalty`:
`(booking.amount * PENALTY_PERCENTAGE) / BASIS_POINTS` (integer division). -/
def penaltyOf (a : Nat) : Nat := a * PENALTY_PERCENTAGE / BASIS_POINTS

/-- The all-zero `Booking`, the default value of the `bookings` mapping. -/
def emptyBooking : Booking :=
  { tourist := 0, tourOperator := 0, amount := 0, depositTime := 0,
    slaDeadline := 0, status := .Pending, slaVerified := false, bookingId := "" }

/-- State right after the constructor ran with deployer `d`: the deployer
is the owner and is made an arbiter (`arbiters[msg.sender] = true`). -/
def initialLedger (d : Address) : Ledger :=
  { bookings := fun _ => emptyBooking,
    authorizedOracles := fun _ => false,
    arbiters := fun a => a == d,
    owner := d }

/-- Point update of the `bookings` mapping. -/
def updateBooking (l : Ledger) (id : String) (b : Booking) : Ledger :=
  { l with bookings := fun id2 => if id2 = id then b else l.bookings id2 }

/-- `createBooking(bookingId, operator)`, with `msg.sender`, `block.timestamp`
and `msg.value` explicit.  Checks, in source order: positive deposit, non-null
operator, operator distinct from sender, fresh id; then stores the new
`Pending`, unverified booking with deadline `now + 24 hours`. -/
def createBooking (sender now value : Nat) (id : String) (tourOp : Address)
    (l : Ledger) : Except Err (Ledger × List Transfer) :=
  if value = 0 then .error .InvalidAmount
  else if tourOp = 0 then .error .InvalidParty
  else if tourOp = sender then .error .InvalidParty
  else if (l.bookings id).tourist ≠ 0 then .error .DuplicateId
  else
    .ok (updateBooking l id
      { tourist := sender, tourOperator := tourOp, amount := value,
        depositTime := now, slaDeadline := now + SLA_TIMEOUT_HOURS * oneHour,
        status := .Pending, slaVerified := false, bookingId := id }, [])

/-- `verifySLA(bookingId, slaPassed)`: only an authorized oracle, booking must
exist and be `Pending`, not already verified, and `now ≤ slaDeadline`;
sets `slaVerified` and moves to `SLAPassed`/`SLAFailed`. -/
def verifySLA (sender now : Nat) (id : String) (slaPassed : Bool)
    (l : Ledger) : Except Err (Ledger × List Transfer) :=
  if l.authorizedOracles sender = false then .error .Unauthorized
  else if (l.bookings id).tourist = 0 then .error .NotFound
  else if (l.bookings id).status ≠ .Pending then .error .InvalidState
  else if (l.bookings id).slaVerified then .error .AlreadyVerified
  else if (l.bookings id).slaDeadline < now then .error .DeadlinePassed
  else
    .ok (updateBooking l id
      { (l.bookings id) with
        slaVerified := true,
        status := if slaPassed then .SLAPassed else .SLAFailed }, [])

/-- `releaseToOperator(bookingId)`: booking exists, status `SLAPassed`,
verified; pays the full amount to the operator and sets `Paid`.
The redundant `require(booking.slaVerified)` maps to `InvalidState`. -/
def releaseToOperator (id : String) (xferOk : Address → Nat → Bool)
    (l : Ledger) : Except Err (Ledger × List Transfer) :=
  if (l.bookings id).tourist = 0 then .error .NotFound
  else if (l.bookings id).status ≠ .SLAPassed then .error .InvalidState
  else if (l.bookings id).slaVerified = false then .error .InvalidState
  else if xferOk (l.bookings id).tourOperator (l.bookings id).amount = false then
    .error .TransferFailed
  else
    .ok (updateBooking l id { (l.bookings id) with status := .Paid },
      [((l.bookings id).tourOperator, (l.bookings id).amount)])

/-- `refundToTourist(bookingId)`: booking exists, status `SLAFailed`,
verified; refunds the full amount to the tourist and sets `Refunded`. -/
def refundToTourist (id : String) (xferOk : Address → Nat → Bool)
    (l : Ledger) : Except Err (Ledger × List Transfer) :=
  if (l.bookings id).tourist = 0 then .error .NotFound
  else if (l.bookings id).status ≠ .SLAFailed then .error .InvalidState
  else if (l.bookings id).slaVerified = false then .error .InvalidState
  else if xferOk (l.bookings id).tourist (l.bookings id).amount = false then
    .error .TransferFailed
  else
    .ok (updateBooking l id { (l.bookings id) with status := .Refunded },
      [((l.bookings id).tourist, (l.bookings id).amount)])

/-- `refundWithPenalty(bookingId)`: booking exists, status `SLAFailed`,
verified; computes `penalty = amount * PENALTY_PERCENTAGE / BASIS_POINTS`
(integer division), sends the penalty to the operator and the rest to the
tourist (each transfer only performed when its value is positive, as the
source guards with `if (... > 0)`), sets `Refunded`. -/
def refundWithPenalty (id : String) (xferOk : Address → Nat → Bool)
    (l : Ledger) : Except Err (Ledger × List Transfer) :=
  if (l.bookings id).tourist = 0 then .error .NotFound
  else if (l.bookings id).status ≠ .SLAFailed then .error .InvalidState
  else if (l.bookings id).slaVerified = false then .error .InvalidState
  else if 0 < penaltyOf (l.bookings id).amount ∧
      xferOk (l.bookings id).tourOperator (penaltyOf (l.bookings id).amount) = false then
    .error .TransferFailed
  else if 0 < (l.bookings id).amount - penaltyOf (l.bookings id).amount ∧
      xferOk (l.bookings id).tourist
        ((l.bookings id).amount - penaltyOf (l.bookings id).amount) = false then
    .error .TransferFailed
  else
    .ok (updateBooking l id { (l.bookings id) with status := .Refunded },
      (if 0 < penaltyOf (l.bookings id).amount then
        [((l.bookings id).tourOperator, penaltyOf (l.bookings id).amount)] else []) ++
      (if 0 < (l.bookings id).amount - penaltyOf (l.bookings id).amount then
        [((l.bookings id).tourist,
          (l.bookings id).amount - penaltyOf (l.bookings id).amount)] else []))

/-- `handleTimeout(bookingId)`: booking exists and is `Pending`, requires
`now > slaDeadline` (else `DeadlineNotReached`), then `!slaVerified`
(else `AlreadyVerified`); refunds the full amount to the tourist. -/
def handleTimeout (now : Nat) (id : String) (xferOk : Address → Nat → Bool)
    (l : Ledger) : Except Err (Ledger × List Transfer) :=
  if (l.bookings id).tourist = 0 then .error .NotFound
  else if (l.bookings id).status ≠ .Pending then .error .InvalidState
  else if ¬ (l.bookings id).slaDeadline < now then .error .DeadlineNotReached
  else if (l.bookings id).slaVerified then .error .AlreadyVerified
  else if xferOk (l.bookings id).tourist (l.bookings id).amount = false then
    .error .TransferFailed
  else
    .ok (updateBooking l id { (l.bookings id) with status := .Refunded },
      [((l.bookings id).tourist, (l.bookings id).amount)])

/-- `raiseDispute(bookingId)`: booking exists, caller is tourist or operator,
status is `SLAPassed` or `SLAFailed`; moves to `Disputed`, no funds move. -/
def raiseDispute (sender : Address) (id : String)
    (l : Ledger) : Except Err (Ledger × List Transfer) :=
  if (l.bookings id).tourist = 0 then .error .NotFound
  else if ¬ (sender = (l.bookings id).tourist ∨ sender = (l.bookings id).tourOperator) then
    .error .Unauthorized
  else if ¬ ((l.bookings id).status = .SLAPassed ∨ (l.bookings id).status = .SLAFailed) then
    .error .InvalidState
  else
    .ok (updateBooking l id { (l.bookings id) with status := .Disputed }, [])

/-- `resolveDispute(bookingId, operatorWins)`: caller is an arbiter, booking
exists and is `Disputed`; pays the full amount to the winner and sets the
corresponding terminal status. -/
def resolveDispute (sender : Address) (id : String) (operatorWins : Bool)
    (xferOk : Address → Nat → Bool)
    (l : Ledger) : Except Err (Ledger × List Transfer) :=
  if l.arbiters sender = false then .error .Unauthorized
  else if (l.bookings id).tourist = 0 then .error .NotFound
  else if (l.bookings id).status ≠ .Disputed then .error .InvalidState
  else if operatorWins then
    if xferOk (l.bookings id).tourOperator (l.bookings id).amount = false then
      .error .TransferFailed
    else
      .ok (updateBooking l id { (l.bookings id) with status := .Paid },
        [((l.bookings id).tourOperator, (l.bookings id).amount)])
  else
    if xferOk (l.bookings id).tourist (l.bookings id).amount = false then
      .error .TransferFailed
    else
      .ok (updateBooking l id { (l.bookings id) with status := .Refunded },
        [((l.bookings id).tourist, (l.bookings id).amount)])

/-- `authorizeOracle(oracle)`: owner only, non-null oracle. -/
def authorizeOracle (sender oracle : Address)
    (l : Ledger) : Except Err (Ledger × List Transfer) :=
  if sender ≠ l.owner then .error .Unauthorized
  else if oracle = 0 then .error .InvalidParty
  else
    .ok ({ l with authorizedOracles := fun a => if a = oracle then true else l.authorizedOracles a }, [])

/-- `revokeOracle(oracle)`: owner only. -/
def revokeOracle (sender oracle : Address)
    (l : Ledger) : Except Err (Ledger × List Transfer) :=
  if sender ≠ l.owner then .error .Unauthorized
  else
    .ok ({ l with authorizedOracles := fun a => if a = oracle then false else l.authorizedOracles a }, [])

/-- `authorizeArbiter(arbiter)`: owner only, non-null arbiter. -/
def authorizeArbiter (sender arb : Address)
    (l : Ledger) : Except Err (Ledger × List Transfer) :=
  if sender ≠ l.owner then .error .Unauthorized
  else if arb = 0 then .error .InvalidParty
  else
    .ok ({ l with arbiters := fun a => if a = arb then true else l.arbiters a }, [])

/-- `revokeArbiter(arbiter)`: owner only; no further check, so the owner can
revoke any address including itself. -/
def revokeArbiter (sender arb : Address)
    (l : Ledger) : Except Err (Ledger × List Transfer) :=
  if sender ≠ l.owner then .error .Unauthorized
  else
    .ok ({ l with arbiters := fun a => if a = arb then false else l.arbiters a }, [])

/-- `getBooking(bookingId)` view: `NotFound` for an absent id, otherwise the
stored record.  Pure: it takes the ledger and returns no new ledger. -/
def getBooking (id : String) (l : Ledger) : Except Err Booking :=
  if (l.bookings id).tourist = 0 then .error .NotFound
  else .ok (l.bookings id)

/-- `isTimedOut(bookingId)` view: reads the mapping without an existence
check, so an absent id is evaluated on the all-zero record.  Total — it
cannot fail. -/
def isTimedOut (now : Nat) (id : String) (l : Ledger) : Bool :=
  decide ((l.bookings id).slaDeadline < now) && !(l.bookings id).slaVerified

/-- `getTimeRemaining(bookingId)` view: `0` once `now ≥ slaDeadline`, else
the difference; no existence check.  Total — it cannot fail. -/
def getTimeRemaining (now : Nat) (id : String) (l : Ledger) : Nat :=
  if (l.bookings id).slaDeadline ≤ now then 0
  else (l.bookings id).slaDeadline - now

/-- One external call to a state-changing entry point of the contract,
with all its actual arguments (caller, clock, value, transfer oracle). -/
inductive Op where
  | createBooking (sender now value : Nat) (id : String) (tourOp : Address)
  | verifySLA (sender now : Nat) (id : String) (slaPassed : Bool)
  | releaseToOperator (id : String) (xferOk : Address → Nat → Bool)
  | refundToTourist (id : String) (xferOk : Address → Nat → Bool)
  | refundWithPenalty (id : String) (xferOk : Address → Nat → Bool)
  | handleTimeout (now : Nat) (id : String) (xferOk : Address → Nat → Bool)
  | raiseDispute (sender : Address) (id : String)
  | resolveDispute (sender : Address) (id : String) (operatorWins : Bool)
      (xferOk : Address → Nat → Bool)
  | authorizeOracle (sender oracle : Address)
  | revokeOracle (sender oracle : Address)
  | authorizeArbiter (sender arb : Address)
  | revokeArbiter (sender arb : Address)

/-- Dispatch an `Op` to the corresponding contract function. -/
def exec : Op → Ledger → Except Err (Ledger × List Transfer)
  | .createBooking sender now value id tourOp => createBooking sender now value id tourOp
  | .verifySLA sender now id slaPassed => verifySLA sender now id slaPassed
  | .releaseToOperator id xferOk => releaseToOperator id xferOk
  | .refundToTourist id xferOk => refundToTourist id xferOk
  | .refundWithPenalty id xferOk => refundWithPenalty id xferOk
  | .handleTimeout now id xferOk => handleTimeout now id xferOk
  | .raiseDispute sender id => raiseDispute sender id
  | .resolveDispute sender id w xferOk => resolveDispute sender id w xferOk
  | .authorizeOracle sender oracle => authorizeOracle sender oracle
  | .revokeOracle sender oracle => revokeOracle sender oracle
  | .authorizeArbiter sender arb => authorizeArbiter sender arb
  | .revokeArbiter sender arb => revokeArbiter sender arb

/-- Whether a call succeeded. -/
def exOk {α : Type} : Except Err α → Bool
  | .ok _ => true
  | .error _ => false

/-- The transfers a call performed (none on a revert). -/
def transfersOf : Except Err (Ledger × List Transfer) → List Transfer
  | .ok (_, ts) => ts
  | .error _ => []

/-- The storage after a call, with EVM revert semantics: an error leaves
the pre-state `l` untouched. -/
def stateOf (l : Ledger) : Except Err (Ledger × List Transfer) → Ledger
  | .ok (l2, _) => l2
  | .error _ => l

/-- The error a call reverted with, if any. -/
def errOf {α : Type} : Except Err α → Option Err
  | .ok _ => none
  | .error e => some e

/-- Total value paid out by a list of transfers. -/
def sumTransfers (ts : List Transfer) : Nat :=
  (ts.map Prod.snd).sum

/-- A ledger state is reachable when it arises from the constructor by a
sequence of successful contract calls. -/
inductive Reachable : Ledger → Prop where
  | init (d : Address) : Reachable (initialLedger d)
  | step {l l2 : Ledger} {ts : List Transfer} (op : Op) :
      Reachable l → exec op l = .ok (l2, ts) → Reachable l2

/-- A status is terminal when it is `Refunded` or `Paid`. -/
def terminal (s : BookingStatus) : Bool :=
  decide (s = BookingStatus.Refunded ∨ s = BookingStatus.Paid)

/-- Key storage invariant: a verified booking is never `Pending` and always
has a non-null tourist (i.e. it exists). -/
def Inv (l : Ledger) : Prop :=
  ∀ id, (l.bookings id).slaVerified = true →
    (l.bookings id).status ≠ BookingStatus.Pending ∧ (l.bookings id).tourist ≠ 0

lemma inv_update {l : Ledger} (id : String) (b : Booking) (hInv : Inv l)
    (hb : b.slaVerified = true → b.status ≠ BookingStatus.Pending ∧ b.tourist ≠ 0) :
    Inv (updateBooking l id b) := by
  intro id2 hv
  simp only [updateBooking] at hv ⊢
  by_cases h : id2 = id
  · simp only [h, if_pos rfl] at hv ⊢
    exact hb hv
  · simp only [if_neg h] at hv ⊢
    exact hInv id2 hv

lemma inv_preserved (op : Op) {l l2 : Ledger} {ts : List Transfer}
    (hInv : Inv l) (h : exec op l = .ok (l2, ts)) : Inv l2 := by
  cases op with
  | createBooking sender now value id tourOp =>
    simp only [exec, createBooking] at h
    split_ifs at h with h1 h2 h3 h4
    all_goals first
      | exact Except.noConfusion h
      | (simp only [Except.ok.injEq, Prod.mk.injEq] at h
         obtain ⟨hl, -⟩ := h
         subst hl
         exact inv_update id _ hInv (by intro hv; simp at hv))
  | verifySLA sender now id slaPassed =>
    simp only [exec, verifySLA] at h
    split_ifs at h with h1 h2 h3 h4 h5
    all_goals first
      | exact Except.noConfusion h
      | (simp only [Except.ok.injEq, Prod.mk.injEq] at h
         obtain ⟨hl, -⟩ := h
         subst hl
         exact inv_update id _ hInv
           (by intro _; exact ⟨by cases slaPassed <;> simp, h2⟩))
  | releaseToOperator id xferOk =>
    simp only [exec, releaseToOperator] at h
    split_ifs at h with h1 h2 h3 h4
    all_goals first
      | exact Except.noConfusion h
      | (simp only [Except.ok.injEq, Prod.mk.injEq] at h
         obtain ⟨hl, -⟩ := h
         subst hl
         exact inv_update id _ hInv (by intro _; exact ⟨by simp, h1⟩))
  | refundToTourist id xferOk =>
    simp only [exec, refundToTourist] at h
    split_ifs at h with h1 h2 h3 h4
    all_goals first
      | exact Except.noConfusion h
      | (simp only [Except.ok.injEq, Prod.mk.injEq] at h
         obtain ⟨hl, -⟩ := h
         subst hl
         exact inv_update id _ hInv (by intro _; exact ⟨by simp, h1⟩))
  | refundWithPenalty id xferOk =>
    simp only [exec, refundWithPenalty] at h
    split_ifs at h with h1 h2 h3 h4 h5
    all_goals first
      | exact Except.noConfusion h
      | (simp only [Except.ok.injEq, Prod.mk.injEq] at h
         obtain ⟨hl, -⟩ := h
         subst hl
         exact inv_update id _ hInv (by intro _; exact ⟨by simp, h1⟩))
  | handleTimeout now id xferOk =>
    simp only [exec, handleTimeout] at h
    split_ifs at h with h1 h2 h3 h4 h5
    all_goals first
      | exact Except.noConfusion h
      | (simp only [Except.ok.injEq, Prod.mk.injEq] at h
         obtain ⟨hl, -⟩ := h
         subst hl
         exact inv_update id _ hInv (by intro _; exact ⟨by simp, h1⟩))
  | raiseDispute sender id =>
    simp only [exec, raiseDispute] at h
    split_ifs at h with h1 h2 h3
    all_goals first
      | exact Except.noConfusion h
      | (simp only [Except.ok.injEq, Prod.mk.injEq] at h
         obtain ⟨hl, -⟩ := h
         subst hl
         exact inv_update id _ hInv (by intro _; exact ⟨by simp, h1⟩))
  | resolveDispute sender id w xferOk =>
    simp only [exec, resolveDispute] at h
    split_ifs at h with h1 h2 h3 h4 h5 h6
    all_goals first
      | exact Except.noConfusion h
      | (simp only [Except.ok.injEq, Prod.mk.injEq] at h
         obtain ⟨hl, -⟩ := h
         subst hl
         exact inv_update id _ hInv (by intro _; exact ⟨by simp, h2⟩))
  | authorizeOracle sender oracle =>
    simp only [exec, authorizeOracle] at h
    split_ifs at h with h1 h2
    all_goals first
      | exact Except.noConfusion h
      | (simp only [Except.ok.injEq, Prod.mk.injEq] at h
         obtain ⟨hl, -⟩ := h
         subst hl
         exact hInv)
  | revokeOracle sender oracle =>
    simp only [exec, revokeOracle] at h
    split_ifs at h with h1
    all_goals first
      | exact Except.noConfusion h
      | (simp only [Except.ok.injEq, Prod.mk.injEq] at h
         obtain ⟨hl, -⟩ := h
         subst hl
         exact hInv)
  | authorizeArbiter sender arb =>
    simp only [exec, authorizeArbiter] at h
    split_ifs at h with h1 h2
    all_goals first
      | exact Except.noConfusion h
      | (simp only [Except.ok.injEq, Prod.mk.injEq] at h
         obtain ⟨hl, -⟩ := h
         subst hl
         exact hInv)
  | revokeArbiter sender arb =>
    simp only [exec, revokeArbiter] at h
    split_ifs at h with h1
    all_goals first
      | exact Except.noConfusion h
      | (simp only [Except.ok.injEq, Prod.mk.injEq] at h
         obtain ⟨hl, -⟩ := h
         subst hl
         exact hInv)

lemma inv_reachable {l : Ledger} (h : Reachable l) : Inv l := by
  induction h with
  | init d =>
    intro id hv
    simp [initialLedger, emptyBooking] at hv
  | step op _ hexec ih => exact inv_preserved op ih hexec

lemma penaltyOf_eq_div (a : Nat) : penaltyOf a = a / 1000 := by
  show a * 10 / 10000 = a / 1000
  rw [show (10000 : Nat) = 1000 * 10 from rfl]
  exact Nat.mul_div_mul_right a 1000 (by norm_num)

lemma penaltyOf_le (a : Nat) : penaltyOf a ≤ a := by
  rw [penaltyOf_eq_div]
  exact Nat.div_le_self a 1000

lemma penaltyOf_lt {a : Nat} (h : 0 < a) : penaltyOf a < a := by
  rw [penaltyOf_eq_div]
  exact Nat.div_lt_self h (by norm_num)

/-!
Concrete scenario used by witnesses and counterexamples: the contract is
deployed by address `1`, which authorizes oracle `9`; tourist `2` then books
with operator `3` for 100 wei at time 0 under booking id `"b"`, and the
oracle records its verdict at time 5 (the deadline is `86400`).
-/

/-- Fund-transfer primitive that always succeeds. -/
def demoXfer : Address → Nat → Bool := fun _ _ => true

/-- Fund-transfer primitive that always fails. -/
def demoXferFail : Address → Nat → Bool := fun _ _ => false

def demoL0 : Ledger := initialLedger 1

def demoL1 : Ledger := stateOf demoL0 (authorizeOracle 1 9 demoL0)

def demoL2 : Ledger := stateOf demoL1 (createBooking 2 0 100 "b" 3 demoL1)

/-- Scenario state after a failed SLA verdict: booking `"b"` is
`SLAFailed` and verified. -/
def demoFailed : Ledger := stateOf demoL2 (verifySLA 9 5 "b" false demoL2)

/-- Scenario state after a passed SLA verdict: booking `"b"` is
`SLAPassed` and verified. -/
def demoPassed : Ledger := stateOf demoL2 (verifySLA 9 5 "b" true demoL2)

/-- Scenario state where the owner revoked itself as arbiter. -/
def demoNoArb : Ledger := stateOf demoL0 (revokeArbiter 1 1 demoL0)

lemma demoL0_reachable : Reachable demoL0 := Reachable.init 1

lemma demoL1_reachable : Reachable demoL1 :=
  Reachable.step (Op.authorizeOracle 1 9) demoL0_reachable rfl

lemma demoL2_reachable : Reachable demoL2 :=
  Reachable.step (Op.createBooking 2 0 100 "b" 3) demoL1_reachable rfl

lemma demoFailed_reachable : Reachable demoFailed :=
  Reachable.step (Op.verifySLA 9 5 "b" false) demoL2_reachable rfl

lemma demoPassed_reachable : Reachable demoPassed :=
  Reachable.step (Op.verifySLA 9 5 "b" true) demoL2_reachable rfl

lemma demoNoArb_reachable : Reachable demoNoArb :=
  Reachable.step (Op.revokeArbiter 1 1) demoL0_reachable rfl

/-- Scenario state after booking `"b"` was refunded: terminal `Refunded`. -/
def demoRefunded : Ledger := stateOf demoFailed (refundToTourist "b" demoXfer demoFailed)

lemma demoRefunded_reachable : Reachable demoRefunded :=
  Reachable.step (Op.refundToTourist "b" demoXfer) demoFailed_reachable rfl

/-- How the mapping update reads back. -/
lemma updateBooking_read (l : Ledger) (tgt id : String) (b : Booking) :
    (updateBooking l tgt b).bookings id = if id = tgt then b else l.bookings id := by
  simp [updateBooking]

/-- A failed call leaves the state unchanged and performs no transfer. -/
lemma err_no_effect {l : Ledger} {r : Except Err (Ledger × List Transfer)}
    (h : exOk r = false) : stateOf l r = l ∧ transfersOf r = [] := by
  cases r with
  | ok p => simp [exOk] at h
  | error e => exact ⟨rfl, rfl⟩

/-- Specification-side version of `isTimedOut`, following the spec's words:
read operations never fail except with `NotFound` for an unknown id, and
otherwise project the stored booking. -/
def specIsTimedOut (now : Nat) (id : String) (l : Ledger) : Except Err Bool :=
  if (l.bookings id).tourist = 0 then .error .NotFound
  else .ok (isTimedOut now id l)

/-- Specification-side version of `getTimeRemaining`, following the spec's
words: `NotFound` for an unknown id, otherwise the code's projection. -/
def specGetTimeRemaining (now : Nat) (id : String) (l : Ledger) : Except Err Nat :=
  if (l.bookings id).tourist = 0 then .error .NotFound
  else .ok (getTimeRemaining now id l)

/-- C10: in every reachable ledger state, a booking whose status is `Pending`
has `slaVerified = false`: `verifySLA` is the only operation that sets the
flag, and it simultaneously moves the status out of `Pending`. -/
theorem pending_implies_unverified (l : Ledger) (h : Reachable l) (id : String)
    (hp : (l.bookings id).status = BookingStatus.Pending) :
    (l.bookings id).slaVerified = false := by
  cases hv : (l.bookings id).slaVerified with
  | false => rfl
  | true => exact absurd hp (inv_reachable h id hv).1

/-- Witness for C10 at the concrete reachable state `demoL2`, whose booking
`"b"` is `Pending`. -/
theorem pending_implies_unverified_witness :
    (demoL2.bookings "b").slaVerified = false :=
  pending_implies_unverified demoL2 demoL2_reachable "b" (by decide)

/-- C6 counterexample: in the reachable state `demoPassed` the booking `"b"`
is verified and the deadline (86400) has passed at time 100000, yet
`handleTimeout` fails with `InvalidState` — not `AlreadyVerified` — because
the `Pending`-status modifier is checked before the `slaVerified` require,
and a verified booking is never `Pending`. -/
theorem handleTimeout_verified_counterexample :
    Reachable demoPassed ∧
    (demoPassed.bookings "b").slaVerified = true ∧
    (demoPassed.bookings "b").slaDeadline < 100000 ∧
    handleTimeout 100000 "b" demoXfer demoPassed = .error .InvalidState ∧
    Err.InvalidState ≠ Err.AlreadyVerified :=
  ⟨demoPassed_reachable, by decide, by decide, rfl, by decide⟩

/-- C6 (amended): for every reachable state and verified booking, calling
`handleTimeout` after the verification deadline fails — but with
`InvalidState`, since the status guard fires before the `AlreadyVerified`
check and a verified booking is never `Pending`. -/
theorem handleTimeout_verified_fails_invalid_state (l : Ledger)
    (h : Reachable l) (id : String) (now : Nat) (xferOk : Address → Nat → Bool)
    (hv : (l.bookings id).slaVerified = true)
    (hd : (l.bookings id).slaDeadline < now) :
    handleTimeout now id xferOk l = .error .InvalidState := by
  obtain ⟨hs, ht⟩ := inv_reachable h id hv
  simp only [handleTimeout, if_neg ht, if_pos hs]

/-- Witness for the amended C6 at the reachable state `demoFailed`. -/
theorem handleTimeout_verified_fails_invalid_state_witness :
    handleTimeout 100000 "b" demoXfer demoFailed = .error .InvalidState :=
  handleTimeout_verified_fails_invalid_state demoFailed demoFailed_reachable
    "b" 100000 demoXfer (by decide) (by decide)

/-- C9 counterexample: from the constructor state the owner (address 1) can
call `revokeArbiter` on itself, reaching a state where the owner is not an
arbiter and its own `resolveDispute` call fails `Unauthorized`. -/
theorem owner_arbiter_counterexample :
    Reachable demoNoArb ∧ demoNoArb.owner = 1 ∧ demoNoArb.arbiters 1 = false ∧
    resolveDispute 1 "b" true demoXfer demoNoArb = .error .Unauthorized :=
  ⟨demoNoArb_reachable, rfl, by decide, rfl⟩

/-- C9 (amended): the owner is an arbiter in the constructor's initial state
(`arbiters[msg.sender] = true`), but this is not an invariant of all
reachable states: `revokeArbiter` can remove the owner. -/
theorem owner_initial_arbiter (d : Address) :
    (initialLedger d).owner = d ∧ (initialLedger d).arbiters d = true :=
  ⟨rfl, by simp [initialLedger]⟩

/-- C4: evaluating the code at the spec's scenario-2 input.  In the reachable
state `demoFailed` the booking `"b"` has amount 100, status `SLAFailed` and is
verified; `refundWithPenalty` computes `penalty = 100 * 10 / 10000 = 0`
(the constant is 10 basis points, i.e. 0.1%, not the documented 10%) and pays
the full 100 to the tourist and nothing to the operator, where the claim
expects 10 to the operator and 90 to the tourist. -/
theorem refundWithPenalty_amount100_behavior :
    Reachable demoFailed ∧
    (demoFailed.bookings "b").amount = 100 ∧
    (demoFailed.bookings "b").status = BookingStatus.SLAFailed ∧
    (demoFailed.bookings "b").slaVerified = true ∧
    penaltyOf 100 = 0 ∧
    transfersOf (refundWithPenalty "b" demoXfer demoFailed) = [(2, 100)] ∧
    ((stateOf demoFailed (refundWithPenalty "b" demoXfer demoFailed)).bookings "b").status
      = BookingStatus.Refunded ∧
    penaltyOf 7 = 0 :=
  ⟨demoFailed_reachable, by decide, by decide, by decide, by decide,
   by decide, by decide, by decide⟩

/-- C2: once a booking's status is terminal (`Refunded` or `Paid`), every
state-machine operation on it fails and leaves the ledger unchanged. -/
theorem terminal_state_is_final (l : Ledger) (id : String)
    (ht : terminal (l.bookings id).status = true)
    (sender now : Nat) (passed w : Bool) (xferOk : Address → Nat → Bool) :
    exOk (verifySLA sender now id passed l) = false ∧
    exOk (releaseToOperator id xferOk l) = false ∧
    exOk (refundToTourist id xferOk l) = false ∧
    exOk (refundWithPenalty id xferOk l) = false ∧
    exOk (handleTimeout now id xferOk l) = false ∧
    exOk (raiseDispute sender id l) = false ∧
    exOk (resolveDispute sender id w xferOk l) = false ∧
    stateOf l (verifySLA sender now id passed l) = l ∧
    stateOf l (releaseToOperator id xferOk l) = l ∧
    stateOf l (refundToTourist id xferOk l) = l ∧
    stateOf l (refundWithPenalty id xferOk l) = l ∧
    stateOf l (handleTimeout now id xferOk l) = l ∧
    stateOf l (raiseDispute sender id l) = l ∧
    stateOf l (resolveDispute sender id w xferOk l) = l := by
  simp only [terminal, decide_eq_true_eq] at ht
  have hP : (l.bookings id).status ≠ BookingStatus.Pending := by
    rcases ht with h | h <;> simp [h]
  have hSP : (l.bookings id).status ≠ BookingStatus.SLAPassed := by
    rcases ht with h | h <;> simp [h]
  have hSF : (l.bookings id).status ≠ BookingStatus.SLAFailed := by
    rcases ht with h | h <;> simp [h]
  have hD : (l.bookings id).status ≠ BookingStatus.Disputed := by
    rcases ht with h | h <;> simp [h]
  have h1 : exOk (verifySLA sender now id passed l) = false := by
    unfold verifySLA
    split_ifs <;> simp [exOk]
  have h2 : exOk (releaseToOperator id xferOk l) = false := by
    unfold releaseToOperator
    split_ifs <;> simp [exOk]
  have h3 : exOk (refundToTourist id xferOk l) = false := by
    unfold refundToTourist
    split_ifs <;> simp [exOk]
  have h4 : exOk (refundWithPenalty id xferOk l) = false := by
    unfold refundWithPenalty
    split_ifs <;> simp [exOk]
  have h5 : exOk (handleTimeout now id xferOk l) = false := by
    unfold handleTimeout
    split_ifs <;> simp [exOk]
  have h6 : exOk (raiseDispute sender id l) = false := by
    unfold raiseDispute
    split_ifs with a1 a2 a3 <;> simp [exOk]
    rcases a3 with h | h
    · exact hSP h
    · exact hSF h
  have h7 : exOk (resolveDispute sender id w xferOk l) = false := by
    unfold resolveDispute
    split_ifs <;> simp [exOk]
  exact ⟨h1, h2, h3, h4, h5, h6, h7,
    (err_no_effect h1).1, (err_no_effect h2).1, (err_no_effect h3).1,
    (err_no_effect h4).1, (err_no_effect h5).1, (err_no_effect h6).1,
    (err_no_effect h7).1⟩

/-- Witness for C2 at the reachable terminal state `demoRefunded`
(booking `"b"` has status `Refunded`). -/
theorem terminal_state_is_final_witness :
    exOk (releaseToOperator "b" demoXfer demoRefunded) = false ∧
    exOk (refundWithPenalty "b" demoXfer demoRefunded) = false ∧
    stateOf demoRefunded (raiseDispute 2 "b" demoRefunded) = demoRefunded := by
  have h := terminal_state_is_final demoRefunded "b" (by decide) 2 100000 true true demoXfer
  exact ⟨h.2.1, h.2.2.2.1, h.2.2.2.2.2.2.2.2.2.2.2.2.1⟩

/-- C3: for a `Pending`, unverified, existing booking and an authorized
oracle, `verifySLA` succeeds exactly up to and including the deadline and
fails `DeadlinePassed` strictly after it, while `handleTimeout` fails
`DeadlineNotReached` up to and including the deadline and can only succeed
strictly after it; hence the two can never both succeed at one instant. -/
theorem verify_timeout_race (l : Ledger) (id : String) (sender now : Nat)
    (passed : Bool) (xferOk : Address → Nat → Bool)
    (hex : (l.bookings id).tourist ≠ 0)
    (hp : (l.bookings id).status = BookingStatus.Pending)
    (hv : (l.bookings id).slaVerified = false)
    (ho : l.authorizedOracles sender = true) :
    (now ≤ (l.bookings id).slaDeadline → exOk (verifySLA sender now id passed l) = true) ∧
    ((l.bookings id).slaDeadline < now →
      verifySLA sender now id passed l = .error .DeadlinePassed) ∧
    (now ≤ (l.bookings id).slaDeadline →
      handleTimeout now id xferOk l = .error .DeadlineNotReached) ∧
    (exOk (handleTimeout now id xferOk l) = true → (l.bookings id).slaDeadline < now) ∧
    ¬(exOk (verifySLA sender now id passed l) = true ∧
      exOk (handleTimeout now id xferOk l) = true) := by
  have hA : now ≤ (l.bookings id).slaDeadline →
      exOk (verifySLA sender now id passed l) = true := by
    intro hle
    simp [verifySLA, ho, hex, hp, hv, Nat.not_lt.mpr hle, exOk]
  have hB : (l.bookings id).slaDeadline < now →
      verifySLA sender now id passed l = .error .DeadlinePassed := by
    intro hgt
    simp [verifySLA, ho, hex, hp, hv, hgt]
  have hC : now ≤ (l.bookings id).slaDeadline →
      handleTimeout now id xferOk l = .error .DeadlineNotReached := by
    intro hle
    simp [handleTimeout, hex, hp, Nat.not_lt.mpr hle]
  have hD : exOk (handleTimeout now id xferOk l) = true →
      (l.bookings id).slaDeadline < now := by
    intro hOk
    rcases Nat.lt_or_ge (l.bookings id).slaDeadline now with h | h
    · exact h
    · rw [hC h] at hOk
      simp [exOk] at hOk
  refine ⟨hA, hB, hC, hD, ?_⟩
  rintro ⟨hv1, ht1⟩
  rw [hB (hD ht1)] at hv1
  simp [exOk] at hv1

/-- Witness for C3 at the reachable state `demoL2`: at time 3 (before the
deadline 86400) verification succeeds and timeout fails `DeadlineNotReached`;
at time 100000 verification fails `DeadlinePassed`. -/
theorem verify_timeout_race_witness :
    exOk (verifySLA 9 3 "b" true demoL2) = true ∧
    handleTimeout 3 "b" demoXfer demoL2 = .error .DeadlineNotReached ∧
    verifySLA 9 100000 "b" true demoL2 = .error .DeadlinePassed := by
  have h := verify_timeout_race demoL2 "b" 9 3 true demoXfer
    (by decide) (by decide) (by decide) (by decide)
  have h2 := verify_timeout_race demoL2 "b" 9 100000 true demoXfer
    (by decide) (by decide) (by decide) (by decide)
  exact ⟨h.1 (by decide), h.2.2.1 (by decide), h2.2.1 (by decide)⟩

/-- C5: `createBooking` fails `InvalidAmount` on a zero deposit,
`InvalidParty` when the operator is the null identity or equals the caller,
`DuplicateId` when the id is taken; on success it stores a `Pending`,
unverified booking with the given parties and amount and deadline
`createdAt + 24 hours`, moving no funds out of escrow. -/
theorem createBooking_contract (sender now value : Nat) (id : String)
    (tourOp : Address) (l : Ledger) :
    (value = 0 → createBooking sender now value id tourOp l = .error .InvalidAmount) ∧
    (value ≠ 0 → (tourOp = 0 ∨ tourOp = sender) →
      createBooking sender now value id tourOp l = .error .InvalidParty) ∧
    (value ≠ 0 → tourOp ≠ 0 → tourOp ≠ sender → (l.bookings id).tourist ≠ 0 →
      createBooking sender now value id tourOp l = .error .DuplicateId) ∧
    (value ≠ 0 → tourOp ≠ 0 → tourOp ≠ sender → (l.bookings id).tourist = 0 →
      exOk (createBooking sender now value id tourOp l) = true ∧
      (stateOf l (createBooking sender now value id tourOp l)).bookings id =
        { tourist := sender, tourOperator := tourOp, amount := value,
          depositTime := now, slaDeadline := now + 24 * oneHour,
          status := .Pending, slaVerified := false, bookingId := id } ∧
      transfersOf (createBooking sender now value id tourOp l) = []) := by
  refine ⟨?_, ?_, ?_, ?_⟩
  · intro h0
    simp [createBooking, h0]
  · intro h0 hbad
    rcases hbad with h | h
    · simp [createBooking, h0, h]
    · by_cases hz : tourOp = 0
      · simp [createBooking, h0, hz]
      · simp [createBooking, h0, hz, h]
  · intro h0 h1 h2 h3
    simp [createBooking, h0, h1, h2, h3]
  · intro h0 h1 h2 h3
    simp [createBooking, h0, h1, h2, h3, exOk, stateOf, transfersOf,
      updateBooking_read, SLA_TIMEOUT_HOURS]

/-- Witness for C5: each error case and the success case at concrete
inputs from the demo scenario. -/
theorem createBooking_contract_witness :
    createBooking 2 0 0 "b" 3 demoL1 = .error .InvalidAmount ∧
    createBooking 2 0 100 "b" 2 demoL1 = .error .InvalidParty ∧
    createBooking 2 0 100 "b" 3 demoL2 = .error .DuplicateId ∧
    demoL2.bookings "b" =
      { tourist := 2, tourOperator := 3, amount := 100, depositTime := 0,
        slaDeadline := 0 + 24 * oneHour, status := .Pending,
        slaVerified := false, bookingId := "b" } := by
  have hA := (createBooking_contract 2 0 0 "b" 3 demoL1).1 rfl
  have hB := (createBooking_contract 2 0 100 "b" 2 demoL1).2.1 (by decide) (Or.inr rfl)
  have hC := (createBooking_contract 2 0 100 "b" 3 demoL2).2.2.1
    (by decide) (by decide) (by decide) (by decide)
  have hD := ((createBooking_contract 2 0 100 "b" 3 demoL1).2.2.2
    (by decide) (by decide) (by decide) (by decide)).2.1
  exact ⟨hA, hB, hC, hD⟩

/-- C7 counterexample: for the unknown id `"zzz"` in the constructor state,
the spec-side read operations fail `NotFound`, but the code's `isTimedOut`
returns the value `true` (the zero record has deadline 0 and is unverified)
and `getTimeRemaining` returns the value `0` — neither fails. -/
theorem read_ops_counterexample :
    (demoL0.bookings "zzz").tourist = 0 ∧
    specIsTimedOut 1 "zzz" demoL0 = .error .NotFound ∧
    isTimedOut 1 "zzz" demoL0 = true ∧
    Except.ok (isTimedOut 1 "zzz" demoL0) ≠ specIsTimedOut 1 "zzz" demoL0 ∧
    specGetTimeRemaining 1 "zzz" demoL0 = .error .NotFound ∧
    getTimeRemaining 1 "zzz" demoL0 = 0 ∧
    Except.ok (getTimeRemaining 1 "zzz" demoL0) ≠ specGetTimeRemaining 1 "zzz" demoL0 := by
  refine ⟨rfl, rfl, rfl, ?_, rfl, rfl, ?_⟩ <;> intro h <;> cases h

/-- C7 (amended): the three read operations are pure projections (their types
return values, never a new ledger).  `getBooking` fails exactly on an unknown
id and only ever with `NotFound`; `isTimedOut` and `getTimeRemaining` are
total and never fail, evaluating the all-zero record for an unknown id; and
`getTimeRemaining` returns 0 (never a negative) once the deadline has passed.
On known ids the code agrees with the spec-side read operations. -/
theorem read_ops_amended (now : Nat) (id : String) (l : Ledger) :
    ((l.bookings id).tourist = 0 → getBooking id l = .error .NotFound) ∧
    ((l.bookings id).tourist ≠ 0 → getBooking id l = .ok (l.bookings id)) ∧
    (∀ e, getBooking id l = .error e → e = .NotFound) ∧
    ((l.bookings id).slaDeadline ≤ now → getTimeRemaining now id l = 0) ∧
    (getTimeRemaining now id l = 0 ∨
      getTimeRemaining now id l = (l.bookings id).slaDeadline - now) ∧
    ((l.bookings id).tourist ≠ 0 →
      specIsTimedOut now id l = .ok (isTimedOut now id l) ∧
      specGetTimeRemaining now id l = .ok (getTimeRemaining now id l)) := by
  refine ⟨?_, ?_, ?_, ?_, ?_, ?_⟩
  · intro h
    simp [getBooking, h]
  · intro h
    simp [getBooking, h]
  · intro e he
    unfold getBooking at he
    split_ifs at he with h <;> cases he <;> rfl
  · intro h
    simp [getTimeRemaining, h]
  · unfold getTimeRemaining
    split_ifs with h
    · exact Or.inl rfl
    · exact Or.inr rfl
  · intro h
    exact ⟨by simp [specIsTimedOut, h], by simp [specGetTimeRemaining, h]⟩

/-- Witness for the amended C7 at concrete inputs. -/
theorem read_ops_amended_witness :
    getBooking "zzz" demoL0 = .error .NotFound ∧
    getBooking "b" demoL2 = .ok (demoL2.bookings "b") ∧
    getTimeRemaining 100000 "b" demoL2 = 0 ∧
    specIsTimedOut 3 "b" demoL2 = .ok (isTimedOut 3 "b" demoL2) := by
  have h1 := (read_ops_amended 0 "zzz" demoL0).1 (by decide)
  have h2 := (read_ops_amended 0 "b" demoL2).2.1 (by decide)
  have h3 := (read_ops_amended 100000 "b" demoL2).2.2.2.1 (by decide)
  have h4 := ((read_ops_amended 3 "b" demoL2).2.2.2.2.2 (by decide)).1
  exact ⟨h1, h2, h3, h4⟩

/-- C8: operations are all-or-nothing.  Any failing call — in particular one
whose underlying fund transfer fails — returns an error, performs no
transfer, and leaves every booking field exactly as before (the embedding's
`stateOf` realises the EVM revert of all earlier writes); and a failing
transfer primitive does make `releaseToOperator` and `resolveDispute` fail,
with `TransferFailed`. -/
theorem ops_all_or_nothing :
    (∀ (op : Op) (l : Ledger), exOk (exec op l) = false →
      stateOf l (exec op l) = l ∧ transfersOf (exec op l) = []) ∧
    (∀ (l : Ledger) (id : String) (xferOk : Address → Nat → Bool),
      xferOk (l.bookings id).tourOperator (l.bookings id).amount = false →
      (l.bookings id).tourist ≠ 0 →
      (l.bookings id).status = BookingStatus.SLAPassed →
      (l.bookings id).slaVerified = true →
      releaseToOperator id xferOk l = .error .TransferFailed) ∧
    (∀ (l : Ledger) (id : String) (sender : Address)
        (xferOk : Address → Nat → Bool),
      l.arbiters sender = true →
      xferOk (l.bookings id).tourOperator (l.bookings id).amount = false →
      (l.bookings id).tourist ≠ 0 →
      (l.bookings id).status = BookingStatus.Disputed →
      resolveDispute sender id true xferOk l = .error .TransferFailed) := by
  refine ⟨?_, ?_, ?_⟩
  · intro op l h
    exact err_no_effect h
  · intro l id xferOk hx hex hst hv
    simp [releaseToOperator, hx, hex, hst, hv]
  · intro l id sender xferOk ha hx hex hst
    simp [resolveDispute, ha, hx, hex, hst]

/-- Witness for C8: in `demoPassed` with an always-failing transfer
primitive, `releaseToOperator` fails `TransferFailed` and the ledger is
untouched with no transfers performed. -/
theorem ops_all_or_nothing_witness :
    releaseToOperator "b" demoXferFail demoPassed = .error .TransferFailed ∧
    stateOf demoPassed (exec (Op.releaseToOperator "b" demoXferFail) demoPassed) = demoPassed ∧
    transfersOf (exec (Op.releaseToOperator "b" demoXferFail) demoPassed) = [] := by
  have h2 := ops_all_or_nothing.2.1 demoPassed "b" demoXferFail rfl
    (by decide) (by decide) (by decide)
  have h1 := ops_all_or_nothing.1 (Op.releaseToOperator "b" demoXferFail)
    demoPassed (by decide)
  exact ⟨h2, h1.1, h1.2⟩

set_option maxHeartbeats 2000000 in
/-- C1: value conservation at terminal transitions.  First part: whenever a
successful operation moves some booking from a non-terminal to a terminal
status (`Refunded`/`Paid`), the total value it pays out equals exactly that
booking's escrowed `amount`.  Second part: a successful `refundWithPenalty`
pays `penalty = floor(amount * PENALTY_PERCENTAGE / BASIS_POINTS)` to the
operator (omitting the transfer when the penalty is zero) and
`amount - penalty` to the tourist, and for every positive amount the two
payouts sum exactly to `amount` — rounding creates and destroys nothing. -/
theorem terminal_transition_conserves_amount :
    (∀ (op : Op) (l : Ledger) (id : String),
      exOk (exec op l) = true →
      terminal (l.bookings id).status = false →
      terminal ((stateOf l (exec op l)).bookings id).status = true →
      sumTransfers (transfersOf (exec op l)) = (l.bookings id).amount) ∧
    (∀ (l : Ledger) (id : String) (xferOk : Address → Nat → Bool),
      exOk (refundWithPenalty id xferOk l) = true →
      0 < (l.bookings id).amount →
      transfersOf (refundWithPenalty id xferOk l) =
        (if 0 < penaltyOf (l.bookings id).amount then
          [((l.bookings id).tourOperator, penaltyOf (l.bookings id).amount)]
        else []) ++
        [((l.bookings id).tourist,
          (l.bookings id).amount - penaltyOf (l.bookings id).amount)] ∧
      sumTransfers (transfersOf (refundWithPenalty id xferOk l)) =
        (l.bookings id).amount) := by
  constructor
  · intro op l id hOk hold hnew
    cases op with
    | createBooking sender now value tgt tourOp =>
      simp only [exec, createBooking] at hOk hnew ⊢
      split_ifs at hOk hnew ⊢ with h1 h2 h3 h4 <;>
        simp only [exOk] at hOk <;> try exact Bool.noConfusion hOk
      simp only [stateOf, updateBooking_read] at hnew
      split_ifs at hnew with hid
      · simp [terminal] at hnew
      · simp [hold] at hnew
    | verifySLA sender now tgt slaPassed =>
      simp only [exec, verifySLA] at hOk hnew ⊢
      split_ifs at hOk hnew ⊢ with h1 h2 h3 h4 h5 h6 <;>
        simp only [exOk] at hOk <;> try exact Bool.noConfusion hOk
      all_goals
        simp only [stateOf, updateBooking_read] at hnew
      all_goals
        split_ifs at hnew with hid
      all_goals
        simp [terminal] at hold hnew
      all_goals
        rcases hnew with h | h
      all_goals
        simp [h] at hold
    | releaseToOperator tgt xferOk =>
      simp only [exec, releaseToOperator] at hOk hnew ⊢
      split_ifs at hOk hnew ⊢ with h1 h2 h3 h4 <;>
        simp only [exOk] at hOk <;> try exact Bool.noConfusion hOk
      simp only [stateOf, updateBooking_read] at hnew
      split_ifs at hnew with hid
      · subst hid
        simp [transfersOf, sumTransfers]
      · simp [hold] at hnew
    | refundToTourist tgt xferOk =>
      simp only [exec, refundToTourist] at hOk hnew ⊢
      split_ifs at hOk hnew ⊢ with h1 h2 h3 h4 <;>
        simp only [exOk] at hOk <;> try exact Bool.noConfusion hOk
      simp only [stateOf, updateBooking_read] at hnew
      split_ifs at hnew with hid
      · subst hid
        simp [transfersOf, sumTransfers]
      · simp [hold] at hnew
    | refundWithPenalty tgt xferOk =>
      have hle := penaltyOf_le (l.bookings tgt).amount
      simp only [exec, refundWithPenalty] at hOk hnew ⊢
      split_ifs at hOk hnew ⊢ with h1 h2 h3 h4 h5 hp hr <;>
        simp only [exOk] at hOk <;> try exact Bool.noConfusion hOk
      all_goals
        simp only [stateOf, updateBooking_read] at hnew
      all_goals
        split_ifs at hnew with hid
      all_goals first
        | (subst hid
           simp [transfersOf, sumTransfers]
           omega)
        | simp [hold] at hnew
    | handleTimeout now tgt xferOk =>
      simp only [exec, handleTimeout] at hOk hnew ⊢
      split_ifs at hOk hnew ⊢ with h1 h2 h3 h4 h5 <;>
        simp only [exOk] at hOk <;> try exact Bool.noConfusion hOk
      simp only [stateOf, updateBooking_read] at hnew
      split_ifs at hnew with hid
      · subst hid
        simp [transfersOf, sumTransfers]
      · simp [hold] at hnew
    | raiseDispute sender tgt =>
      simp only [exec, raiseDispute] at hOk hnew ⊢
      split_ifs at hOk hnew ⊢ with h1 h2 h3 <;>
        simp only [exOk] at hOk <;> try exact Bool.noConfusion hOk
      simp only [stateOf, updateBooking_read] at hnew
      split_ifs at hnew with hid
      · simp [terminal] at hnew
      · simp [hold] at hnew
    | resolveDispute sender tgt w xferOk =>
      simp only [exec, resolveDispute] at hOk hnew ⊢
      split_ifs at hOk hnew ⊢ with h1 h2 h3 h4 h5 h6 <;>
        simp only [exOk] at hOk <;> try exact Bool.noConfusion hOk
      all_goals
        simp only [stateOf, updateBooking_read] at hnew
      all_goals
        split_ifs at hnew with hid
      all_goals first
        | (subst hid
           simp [transfersOf, sumTransfers])
        | simp [hold] at hnew
    | authorizeOracle sender oracle =>
      simp only [exec, authorizeOracle] at hOk hnew ⊢
      split_ifs at hOk hnew ⊢ with h1 h2 <;>
        simp only [exOk] at hOk <;> try exact Bool.noConfusion hOk
      simp only [stateOf] at hnew
      simp [hold] at hnew
    | revokeOracle sender oracle =>
      simp only [exec, revokeOracle] at hOk hnew ⊢
      split_ifs at hOk hnew ⊢ with h1 <;>
        simp only [exOk] at hOk <;> try exact Bool.noConfusion hOk
      simp only [stateOf] at hnew
      simp [hold] at hnew
    | authorizeArbiter sender arb =>
      simp only [exec, authorizeArbiter] at hOk hnew ⊢
      split_ifs at hOk hnew ⊢ with h1 h2 <;>
        simp only [exOk] at hOk <;> try exact Bool.noConfusion hOk
      simp only [stateOf] at hnew
      simp [hold] at hnew
    | revokeArbiter sender arb =>
      simp only [exec, revokeArbiter] at hOk hnew ⊢
      split_ifs at hOk hnew ⊢ with h1 <;>
        simp only [exOk] at hOk <;> try exact Bool.noConfusion hOk
      simp only [stateOf] at hnew
      simp [hold] at hnew
  · intro l id xferOk hOk hpos
    have hle := penaltyOf_le (l.bookings id).amount
    have hlt := penaltyOf_lt hpos
    simp only [refundWithPenalty] at hOk ⊢
    split_ifs at hOk ⊢ with h1 h2 h3 h4 h5 hp <;>
      simp only [exOk] at hOk <;> try exact Bool.noConfusion hOk
    all_goals
      refine ⟨?_, ?_⟩ <;> simp [transfersOf, sumTransfers] <;> omega


/-- Witness for C1 at the reachable state `demoFailed`: the successful
`refundWithPenalty` on booking `"b"` (amount 100) pays out a total of
exactly 100. -/
theorem terminal_transition_conserves_amount_witness :
    sumTransfers (transfersOf (exec (Op.refundWithPenalty "b" demoXfer) demoFailed)) =
      (demoFailed.bookings "b").amount ∧
    transfersOf (refundWithPenalty "b" demoXfer demoFailed) =
      (if 0 < penaltyOf (demoFailed.bookings "b").amount then
        [((demoFailed.bookings "b").tourOperator,
          penaltyOf (demoFailed.bookings "b").amount)]
      else []) ++
      [((demoFailed.bookings "b").tourist,
        (demoFailed.bookings "b").amount - penaltyOf (demoFailed.bookings "b").amount)] := by
  have h1 := terminal_transition_conserves_amount.1
    (Op.refundWithPenalty "b" demoXfer) demoFailed "b" (by decide) (by decide) (by decide)
  have h2 := (terminal_transition_conserves_amount.2 demoFailed "b" demoXfer
    (by decide) (by decide)).1
  exact ⟨h1, h2⟩

end SafetyEscrow
